import Mathlib

/-!
Shallow embedding of the state-stored aggregate core of fmodel-ts
(`src/lib/application/statestored-aggregate.ts`), together with the
decider and saga contracts it consumes.

Conventions of the embedding:
* A TypeScript `readonly E[]` is a Lean `List E`.
* A TypeScript `S | null` is an `Option S` (`none` = `null`).
* JavaScript `Array.prototype.reduce(f, init)` is modelled by `jsReduce`,
  written exactly as the ECMAScript left-to-right accumulation.
* The unguarded recursion of `StateOrchestratingComputation.computeNewState`
  is modelled with explicit fuel; `none` marks fuel exhaustion (the JS code
  would still be recursing / would overflow the stack).
* JavaScript truthiness of a runtime `S`-value is a parameter
  `isTruthy : S → Bool`; the ternary `currentState ? currentState : init`
  on a `S | null` value is `resolveState`.
* Promise-returning repository members are modelled as explicit
  state-passing functions over an abstract store type `Sigma`; a rejected
  promise / thrown exception is modelled with `Except` in the fallible
  variants.
-/

/-- The `IDecider<C, S, E>` contract (`src/lib/domain/decider.ts`, consumed
by the aggregate file): a pure `decide`, a pure `evolve`, and a constant
`initialState`. -/
structure IDecider (C S E : Type) where
  decide : C → S → List E
  evolve : S → E → S
  initialState : S

/-- The `ISaga<E, C>` contract (`src/lib/domain/saga.ts`, consumed by the
aggregate file): a pure `react` from one event to follow-up commands. -/
structure ISaga (E C : Type) where
  react : E → List C

/-- ECMAScript `Array.prototype.reduce(f, init)` on an array without holes:
left-to-right accumulation, callback applied as `f acc element`. -/
def jsReduce {A B : Type} (f : B → A → B) : B → List A → B
  | acc, [] => acc
  | acc, x :: xs => jsReduce f (f acc x) xs

namespace StateComputation

/-- Embeds `StateComputation.computeNewState` (statestored-aggregate.ts lines
110-113): `const events = this.decider.decide(command, state);
return events.reduce(this.decider.evolve, state);` -/
def computeNewState {C S E : Type} (d : IDecider C S E) (state : S) (command : C) : S :=
  jsReduce d.evolve state (d.decide command state)

end StateComputation

/-- Left fold over a list in the `Option` monad, stopping at the first
`none`; this is what JS `commands.forEach((c) => (newState =
this.computeNewState(newState, c)))` becomes once the possibly
non-terminating recursive call is fuelled. -/
def optFoldl {S A : Type} (f : S → A → Option S) : S → List A → Option S
  | s, [] => some s
  | s, a :: l =>
    match f s a with
    | none => none
    | some s' => optFoldl f s' l

namespace StateOrchestratingComputation

/-- Embeds `StateOrchestratingComputation.computeNewState` (statestored-aggregate.ts
lines 137-145), fuelled: decide, fold the events through evolve, then fold
`events.flatMap(react)` through the recursive call, threading the state.
`none` = fuel ran out (the JS recursion is unguarded). -/
def computeNewState {C S E : Type} (d : IDecider C S E) (g : ISaga E C) :
    Nat → S → C → Option S
  | 0, _, _ => none
  | fuel + 1, state, command =>
    let events := d.decide command state
    let newState := jsReduce d.evolve state events
    optFoldl (fun ns c => computeNewState d g fuel ns c) newState
      (events.flatMap g.react)

end StateOrchestratingComputation

/-- The function `jsReduce` is the ordinary left fold. -/
theorem jsReduce_eq_foldl {A B : Type} (f : B → A → B) (init : B) (l : List A) :
    jsReduce f init l = l.foldl f init := by
  induction l generalizing init with
  | nil => rfl
  | cons x xs ih => simp [jsReduce, List.foldl, ih]

theorem optFoldl_append {S A : Type} (f : S → A → Option S) (s : S) (l₁ l₂ : List A) :
    optFoldl f s (l₁ ++ l₂) =
      match optFoldl f s l₁ with
      | none => none
      | some s' => optFoldl f s' l₂ := by
  induction l₁ generalizing s with
  | nil => simp [optFoldl]
  | cons a l ih =>
    simp only [List.cons_append, optFoldl]
    cases f s a with
    | none => rfl
    | some s' => exact ih s'

theorem optFoldl_flatMap {S A B : Type} (f : S → B → Option S) (h : A → List B)
    (s : S) (l : List A) :
    optFoldl f s (l.flatMap h) =
      optFoldl (fun s' a => optFoldl f s' (h a)) s l := by
  induction l generalizing s with
  | nil => rfl
  | cons a l ih =>
    rw [List.flatMap_cons, optFoldl_append]
    simp only [optFoldl]
    cases optFoldl f s (h a) with
    | none => rfl
    | some s' => exact ih s'

/-- The fold `optFoldl` is monotone in its step function with respect to
definedness. -/
theorem optFoldl_mono {S A : Type} {f f' : S → A → Option S}
    (hf : ∀ s a r, f s a = some r → f' s a = some r) :
    ∀ (l : List A) (s r : S), optFoldl f s l = some r → optFoldl f' s l = some r := by
  intro l
  induction l with
  | nil => intro s r hr; simpa [optFoldl] using hr
  | cons a l ih =>
    intro s r hr
    simp only [optFoldl] at hr ⊢
    cases hfa : f s a with
    | none => rw [hfa] at hr; exact absurd hr (by simp)
    | some s' =>
      rw [hfa] at hr
      rw [hf s a s' hfa]
      exact ih s' r hr

/-- More fuel never changes a result that was already reached. -/
theorem orchestrated_mono {C S E : Type} (d : IDecider C S E) (g : ISaga E C) :
    ∀ (fuel : Nat) (s : S) (c : C) (r : S),
      StateOrchestratingComputation.computeNewState d g fuel s c = some r →
      StateOrchestratingComputation.computeNewState d g (fuel + 1) s c = some r := by
  intro fuel
  induction fuel with
  | zero => intro s c r hr; exact absurd hr (by simp [StateOrchestratingComputation.computeNewState])
  | succ n ih =>
    intro s c r hr
    simp only [StateOrchestratingComputation.computeNewState] at hr ⊢
    exact optFoldl_mono (fun s' c' r' h => ih s' c' r' h) _ _ r hr

theorem orchestrated_mono_le {C S E : Type} (d : IDecider C S E) (g : ISaga E C)
    {fuel fuel' : Nat} (hle : fuel ≤ fuel') {s : S} {c : C} {r : S}
    (h : StateOrchestratingComputation.computeNewState d g fuel s c = some r) :
    StateOrchestratingComputation.computeNewState d g fuel' s c = some r := by
  induction hle with
  | refl => exact h
  | step _ ih => exact orchestrated_mono d g _ _ _ _ ih

/-- Modelled from the spec, §4.2: after folding the command's events, "for
every event in the command's decided-event sequence (in that same order),
call `react(event)`…; for every follow-up command (in the order `react`
returned them), recursively invoke `computeNewState(newState,
followUpCommand)` and let the result become the new `newState`" — the
nested, depth-first left-to-right cascade, fuelled the same way. -/
def cascadeSpecCompute {C S E : Type} (d : IDecider C S E) (g : ISaga E C) :
    Nat → S → C → Option S
  | 0, _, _ => none
  | fuel + 1, state, command =>
    let events := d.decide command state
    let newState := (d.decide command state).foldl d.evolve state
    optFoldl
      (fun ns e => optFoldl (fun ns' c => cascadeSpecCompute d g fuel ns' c) ns (g.react e))
      newState events

/-- JS truthiness of a `S | null` value: `null` is falsy, a present value
is as truthy as the runtime value itself. `resolveState isTruthy cur init`
is the ternary `currentState ? currentState : initialState` from every
`handle` implementation. -/
def resolveState {S : Type} (isTruthy : S → Bool) (cur : Option S) (init : S) : S :=
  match cur with
  | none => init
  | some s => if isTruthy s then s else init

/-- The `StateRepository<C, S>` contract (statestored-aggregate.ts lines
332-349), with the `Promise` effects made explicit over an abstract store
type `Sigma`: `fetchState` reads, `save` returns the saved state and the
updated store. -/
structure StateRepository (C S Sigma : Type) where
  fetchState : Sigma → C → Option S
  save : Sigma → S → S × Sigma

/-- The `StateLockingRepository<C, S, V>` contract (statestored-aggregate.ts
lines 360-379): fetch yields `(state or null, version or null)`, save takes
the state and the version token. -/
structure StateLockingRepository (C S V Sigma : Type) where
  fetchState : Sigma → C → Option S × Option V
  save : Sigma → S → Option V → (S × V) × Sigma

namespace StateStoredAggregate

/-- Embeds `StateStoredAggregate<C, S, E>`: a decider plus a plain state
repository. -/
structure Agg (C S E Sigma : Type) where
  decider : IDecider C S E
  repo : StateRepository C S Sigma

variable {C S E Sigma : Type}

def decide (a : Agg C S E Sigma) (c : C) (s : S) : List E :=
  a.decider.decide c s

def evolve (a : Agg C S E Sigma) (s : S) (e : E) : S :=
  a.decider.evolve s e

def initialState (a : Agg C S E Sigma) : S :=
  a.decider.initialState

/-- Embeds `StateStoredAggregate.handle` (lines 179-187): fetch, resolve the
truthiness ternary, compute, save. -/
def handle (a : Agg C S E Sigma) (isTruthy : S → Bool) (σ : Sigma) (command : C) :
    S × Sigma :=
  let currentState := a.repo.fetchState σ command
  a.repo.save σ
    (StateComputation.computeNewState a.decider
      (resolveState isTruthy currentState a.decider.initialState) command)

end StateStoredAggregate

namespace StateStoredLockingAggregate

/-- Embeds `StateStoredLockingAggregate<C, S, E, V>`: a decider plus a locking
repository. -/
structure Agg (C S E V Sigma : Type) where
  decider : IDecider C S E
  repo : StateLockingRepository C S V Sigma

variable {C S E V Sigma : Type}

def decide (a : Agg C S E V Sigma) (c : C) (s : S) : List E :=
  a.decider.decide c s

def evolve (a : Agg C S E V Sigma) (s : S) (e : E) : S :=
  a.decider.evolve s e

def initialState (a : Agg C S E V Sigma) : S :=
  a.decider.initialState

/-- Embeds `StateStoredLockingAggregate.handle` (lines 220-231): destructure the
fetched `[currentState, version]`, resolve the ternary on the state alone,
compute, and save with the fetched version as second argument. -/
def handle (a : Agg C S E V Sigma) (isTruthy : S → Bool) (σ : Sigma) (command : C) :
    (S × V) × Sigma :=
  let fetched := a.repo.fetchState σ command
  a.repo.save σ
    (StateComputation.computeNewState a.decider
      (resolveState isTruthy fetched.1 a.decider.initialState) command)
    fetched.2

end StateStoredLockingAggregate

namespace StateStoredOrchestratingAggregate

/-- Embeds `StateStoredOrchestratingAggregate<C, S, E>`: a decider, a saga and a
plain state repository. -/
structure Agg (C S E Sigma : Type) where
  decider : IDecider C S E
  saga : ISaga E C
  repo : StateRepository C S Sigma

variable {C S E Sigma : Type}

def decide (a : Agg C S E Sigma) (c : C) (s : S) : List E :=
  a.decider.decide c s

def evolve (a : Agg C S E Sigma) (s : S) (e : E) : S :=
  a.decider.evolve s e

def initialState (a : Agg C S E Sigma) : S :=
  a.decider.initialState

def react (a : Agg C S E Sigma) (e : E) : List C :=
  a.saga.react e

/-- Embeds `StateStoredOrchestratingAggregate.handle` (lines 265-273): same fetch
and ternary, but the compute is the fuelled orchestrating recursion;
`none` means the cascade would not have terminated within `fuel`. -/
def handle (a : Agg C S E Sigma) (isTruthy : S → Bool) (fuel : Nat) (σ : Sigma)
    (command : C) : Option (S × Sigma) :=
  let currentState := a.repo.fetchState σ command
  (StateOrchestratingComputation.computeNewState a.decider a.saga fuel
      (resolveState isTruthy currentState a.decider.initialState) command).map
    (a.repo.save σ)

end StateStoredOrchestratingAggregate

namespace StateStoredOrchestratingLockingAggregate

/-- Embeds `StateStoredOrchestratingLockingAggregate<C, S, E, V>`: a decider, a
saga and a locking repository. -/
structure Agg (C S E V Sigma : Type) where
  decider : IDecider C S E
  saga : ISaga E C
  repo : StateLockingRepository C S V Sigma

variable {C S E V Sigma : Type}

def decide (a : Agg C S E V Sigma) (c : C) (s : S) : List E :=
  a.decider.decide c s

def evolve (a : Agg C S E V Sigma) (s : S) (e : E) : S :=
  a.decider.evolve s e

def initialState (a : Agg C S E V Sigma) : S :=
  a.decider.initialState

def react (a : Agg C S E V Sigma) (e : E) : List C :=
  a.saga.react e

/-- Embeds `StateStoredOrchestratingLockingAggregate.handle` (lines 310-321):
fetch `[state, version]`, ternary on the state, orchestrated compute, save
with the fetched version. -/
def handle (a : Agg C S E V Sigma) (isTruthy : S → Bool) (fuel : Nat) (σ : Sigma)
    (command : C) : Option ((S × V) × Sigma) :=
  let fetched := a.repo.fetchState σ command
  (StateOrchestratingComputation.computeNewState a.decider a.saga fuel
      (resolveState isTruthy fetched.1 a.decider.initialState) command).map
    (fun s => a.repo.save σ s fetched.2)

end StateStoredOrchestratingLockingAggregate

/-- A single-entity in-memory `StateRepository`: the store is the optional
current state, `fetchState` reads it, `save` installs the state and returns
it (spec §8, "empty persistence store" round-trip scenario). -/
def inMemoryRepo (C S : Type) : StateRepository C S (Option S) where
  fetchState σ _ := σ
  save _ s := (s, some s)

/-- The spec §8 concrete decision unit over integers: `decide(n, s) = [n]`,
`evolve(s, e) = s + e`, `initialState = 0`; used as a concrete instance in
witnesses. -/
def addDecider : IDecider Int Int Int where
  decide c _ := [c]
  evolve s e := s + e
  initialState := 0

/-- JS truthiness of a number (modelled on `Int`): `0` is falsy, every
other integer truthy. -/
def intTruthy (n : Int) : Bool := n != 0

/-- A routing unit that never produces follow-up commands. -/
def emptySaga (E C : Type) : ISaga E C where
  react _ := []

/-- C1: for every decision unit, state `s` and command `c`,
`StateComputation.computeNewState s c` is the left-to-right fold of
`evolve` over `decide c s`, starting from `s`, in decide order. -/
theorem claim_C1_computeNewState_is_foldl {C S E : Type} (d : IDecider C S E)
    (s : S) (c : C) :
    StateComputation.computeNewState d s c = (d.decide c s).foldl d.evolve s := by
  unfold StateComputation.computeNewState
  exact jsReduce_eq_foldl d.evolve s (d.decide c s)

/-- C2: the orchestrating `computeNewState` is exactly the depth-first,
left-to-right cascade the spec describes: fold the decided events through
`evolve`, then for every decided event in decide order and every follow-up
command in react order, recurse on the accumulated state, threading the
result — at every fuel bound the code's `flatMap`-then-fold form equals
the spec's nested event/command loop. -/
theorem claim_C2_orchestrated_is_depth_first_cascade {C S E : Type}
    (d : IDecider C S E) (g : ISaga E C) (fuel : Nat) (s : S) (c : C) :
    StateOrchestratingComputation.computeNewState d g fuel s c =
      cascadeSpecCompute d g fuel s c := by
  induction fuel generalizing s c with
  | zero => rfl
  | succ n ih =>
    simp only [StateOrchestratingComputation.computeNewState, cascadeSpecCompute]
    rw [jsReduce_eq_foldl, optFoldl_flatMap]
    simp only [ih]

/-- C7: with a routing unit whose `react` is always empty, the
orchestrating computation coincides with the plain one for every state and
command (any positive fuel suffices, as no recursion happens). -/
theorem claim_C7_empty_saga_is_plain {C S E : Type} (d : IDecider C S E)
    (g : ISaga E C) (hg : ∀ e, g.react e = []) (fuel : Nat) (s : S) (c : C) :
    StateOrchestratingComputation.computeNewState d g (fuel + 1) s c =
      some (StateComputation.computeNewState d s c) := by
  simp only [StateOrchestratingComputation.computeNewState,
    StateComputation.computeNewState]
  have hnil : ∀ l : List E, l.flatMap g.react = [] := by
    intro l
    induction l with
    | nil => rfl
    | cons e l ihl => simp [List.flatMap_cons, hg, ihl]
  rw [hnil]
  rfl

/-- Witness for C7 at the spec §8 decider, the empty saga, state 3,
command 5. -/
theorem claim_C7_witness :
    (∀ e : Int, (emptySaga Int Int).react e = []) ∧
      StateOrchestratingComputation.computeNewState addDecider (emptySaga Int Int)
          1 3 5 =
        some (StateComputation.computeNewState addDecider 3 5) :=
  ⟨fun _ => rfl,
    claim_C7_empty_saga_is_plain addDecider (emptySaga Int Int) (fun _ => rfl) 0 3 5⟩

/-- C8: when `decide c s` is empty, `computeNewState s c = s`, and `evolve`
is not applied at all — the result is `s` no matter which evolve function
the decision unit carries. -/
theorem claim_C8_empty_decide_is_noop {C S E : Type} (d : IDecider C S E)
    (s : S) (c : C) (h : d.decide c s = []) :
    StateComputation.computeNewState d s c = s ∧
      ∀ ev : S → E → S,
        StateComputation.computeNewState ⟨d.decide, ev, d.initialState⟩ s c = s := by
  refine ⟨?_, fun ev => ?_⟩
  · simp [StateComputation.computeNewState, h, jsReduce]
  · simp [StateComputation.computeNewState, h, jsReduce]

/-- A decision unit that decides no events for any command. -/
def noopDecider : IDecider Int Int Int where
  decide _ _ := []
  evolve s e := s + e + 1
  initialState := 7

/-- Witness for C8 at the no-event decider, state 9, command 4. -/
theorem claim_C8_witness :
    noopDecider.decide 4 9 = [] ∧
      (StateComputation.computeNewState noopDecider 9 4 = 9 ∧
        ∀ ev : Int → Int → Int,
          StateComputation.computeNewState ⟨noopDecider.decide, ev, noopDecider.initialState⟩ 9 4 = 9) :=
  ⟨rfl, claim_C8_empty_decide_is_noop noopDecider 9 4 rfl⟩

/-- The event of the spec §8 cascade scenario, carrying the resulting
count. -/
inductive IncEvent : Type
  | incremented (resulting : Nat)

/-- The cascade-scenario decision unit: `"inc"` decides one `incremented`
event carrying the resulting count; `evolve` adds 1. -/
def incDecider : IDecider String Nat IncEvent where
  decide c s := if c = "inc" then [IncEvent.incremented (s + 1)] else []
  evolve s _ := s + 1
  initialState := 0

/-- The cascade-scenario routing unit: `incremented n` triggers `"inc"`
again only while the resulting count is below 3. -/
def incSaga : ISaga IncEvent String where
  react e :=
    match e with
    | .incremented n => if n < 3 then ["inc"] else []

/-- C9: on the increment decider and the below-3 routing unit, the
orchestrating computation from state 0 on `"inc"` yields 3 whenever the
recursion is allowed depth at least 3, and depth 2 is not enough — the
cascade recurses exactly twice after the initial increment, then stops. -/
theorem claim_C9_inc_cascade (fuel : Nat) (h : 3 ≤ fuel) :
    StateOrchestratingComputation.computeNewState incDecider incSaga fuel 0 "inc" =
        some 3 ∧
      StateOrchestratingComputation.computeNewState incDecider incSaga 2 0 "inc" =
        none := by
  refine ⟨orchestrated_mono_le incDecider incSaga h ?_, ?_⟩ <;> decide

/-- Witness for C9 at fuel 3. -/
theorem claim_C9_witness :
    3 ≤ 3 ∧
      (StateOrchestratingComputation.computeNewState incDecider incSaga 3 0 "inc" =
          some 3 ∧
        StateOrchestratingComputation.computeNewState incDecider incSaga 2 0 "inc" =
          none) :=
  ⟨by decide, claim_C9_inc_cascade 3 (by decide)⟩

/-- C10: every aggregate variant delegates `decide`/`evolve` to its
decision unit and exposes its `initialState` unchanged, and both
orchestrating variants delegate `react` to their routing unit. -/
theorem claim_C10_delegation {C S E V Sigma : Type}
    (d : IDecider C S E) (g : ISaga E C)
    (r : StateRepository C S Sigma) (lr : StateLockingRepository C S V Sigma)
    (c : C) (s : S) (e : E) :
    (StateStoredAggregate.decide (StateStoredAggregate.Agg.mk d r) c s = d.decide c s ∧
      StateStoredAggregate.evolve (StateStoredAggregate.Agg.mk d r) s e = d.evolve s e ∧
      StateStoredAggregate.initialState (StateStoredAggregate.Agg.mk d r) = d.initialState) ∧
    (StateStoredLockingAggregate.decide (StateStoredLockingAggregate.Agg.mk d lr) c s =
        d.decide c s ∧
      StateStoredLockingAggregate.evolve (StateStoredLockingAggregate.Agg.mk d lr) s e =
        d.evolve s e ∧
      StateStoredLockingAggregate.initialState (StateStoredLockingAggregate.Agg.mk d lr) =
        d.initialState) ∧
    (StateStoredOrchestratingAggregate.decide
          (StateStoredOrchestratingAggregate.Agg.mk d g r) c s = d.decide c s ∧
      StateStoredOrchestratingAggregate.evolve
          (StateStoredOrchestratingAggregate.Agg.mk d g r) s e = d.evolve s e ∧
      StateStoredOrchestratingAggregate.initialState
          (StateStoredOrchestratingAggregate.Agg.mk d g r) = d.initialState ∧
      StateStoredOrchestratingAggregate.react
          (StateStoredOrchestratingAggregate.Agg.mk d g r) e = g.react e) ∧
    (StateStoredOrchestratingLockingAggregate.decide
          (StateStoredOrchestratingLockingAggregate.Agg.mk d g lr) c s = d.decide c s ∧
      StateStoredOrchestratingLockingAggregate.evolve
          (StateStoredOrchestratingLockingAggregate.Agg.mk d g lr) s e = d.evolve s e ∧
      StateStoredOrchestratingLockingAggregate.initialState
          (StateStoredOrchestratingLockingAggregate.Agg.mk d g lr) = d.initialState ∧
      StateStoredOrchestratingLockingAggregate.react
          (StateStoredOrchestratingLockingAggregate.Agg.mk d g lr) e = g.react e) :=
  ⟨⟨rfl, rfl, rfl⟩, ⟨rfl, rfl, rfl⟩, ⟨rfl, rfl, rfl, rfl⟩, ⟨rfl, rfl, rfl, rfl⟩⟩

/-- C4: in every aggregate variant, state absence is decided by JS
truthiness — a fetched state that is present but falsy makes `handle`
compute from `initialState` instead of the fetched state. -/
theorem claim_C4_truthiness_check {C S E V Sigma : Type} (isTruthy : S → Bool)
    (c : C) (s : S) (hs : isTruthy s = false) :
    (∀ (a : StateStoredAggregate.Agg C S E Sigma) (σ : Sigma),
        a.repo.fetchState σ c = some s →
        StateStoredAggregate.handle a isTruthy σ c =
          a.repo.save σ
            (StateComputation.computeNewState a.decider a.decider.initialState c)) ∧
    (∀ (a : StateStoredLockingAggregate.Agg C S E V Sigma) (σ : Sigma),
        (a.repo.fetchState σ c).1 = some s →
        StateStoredLockingAggregate.handle a isTruthy σ c =
          a.repo.save σ
            (StateComputation.computeNewState a.decider a.decider.initialState c)
            (a.repo.fetchState σ c).2) ∧
    (∀ (a : StateStoredOrchestratingAggregate.Agg C S E Sigma) (σ : Sigma) (fuel : Nat),
        a.repo.fetchState σ c = some s →
        StateStoredOrchestratingAggregate.handle a isTruthy fuel σ c =
          (StateOrchestratingComputation.computeNewState a.decider a.saga fuel
              a.decider.initialState c).map (a.repo.save σ)) ∧
    (∀ (a : StateStoredOrchestratingLockingAggregate.Agg C S E V Sigma) (σ : Sigma)
        (fuel : Nat),
        (a.repo.fetchState σ c).1 = some s →
        StateStoredOrchestratingLockingAggregate.handle a isTruthy fuel σ c =
          (StateOrchestratingComputation.computeNewState a.decider a.saga fuel
              a.decider.initialState c).map
            (fun s' => a.repo.save σ s' (a.repo.fetchState σ c).2)) := by
  refine ⟨fun a σ hf => ?_, fun a σ hf => ?_, fun a σ fuel hf => ?_, fun a σ fuel hf => ?_⟩
  · simp [StateStoredAggregate.handle, hf, resolveState, hs]
  · simp [StateStoredLockingAggregate.handle, hf, resolveState, hs]
  · simp [StateStoredOrchestratingAggregate.handle, hf, resolveState, hs]
  · simp [StateStoredOrchestratingLockingAggregate.handle, hf, resolveState, hs]

/-- A plain repository whose store is a unit and whose fetch always
returns the falsy state 0. -/
def zeroRepo : StateRepository Int Int Unit where
  fetchState _ _ := some 0
  save _ s := (s, ())

/-- Witness for C4: the plain aggregate over `addDecider`, fetching the
present but falsy state `0`, computes from `initialState`. -/
theorem claim_C4_witness :
    intTruthy 0 = false ∧
      zeroRepo.fetchState () 5 = some 0 ∧
      StateStoredAggregate.handle (StateStoredAggregate.Agg.mk addDecider zeroRepo)
          intTruthy () 5 =
        zeroRepo.save ()
          (StateComputation.computeNewState addDecider addDecider.initialState 5) :=
  ⟨rfl, rfl,
    (claim_C4_truthiness_check (E := Int) (V := Int) intTruthy 5 0 rfl).1
      (StateStoredAggregate.Agg.mk addDecider zeroRepo) () rfl⟩

/-- The decision unit of the C3 counterexample: `decide(c, s) = [c]`,
`evolve` adds, but with `initialState = 100` so the start state is
observable in the result. -/
def cexDecider : IDecider Int Int Int where
  decide c _ := [c]
  evolve s e := s + e
  initialState := 100

/-- The C3 counterexample aggregate: `cexDecider` over the in-memory
single-entity repository. -/
def cexAgg : StateStoredAggregate.Agg Int Int Int (Option Int) :=
  StateStoredAggregate.Agg.mk cexDecider (inMemoryRepo Int Int)

/-- C3 counterexample: with the store holding the present but falsy state
`0`, `handle 5` does not save and return the computation started from the
fetched state (which would give 5); it starts from `initialState = 100`
and yields 105 — so "uses the fetched state whenever it is present" is
false on the code. -/
theorem claim_C3_counterexample :
    cexAgg.repo.fetchState (some 0) 5 = some 0 ∧
      StateStoredAggregate.handle cexAgg intTruthy (some 0) 5 = (105, some 105) ∧
      StateStoredAggregate.handle cexAgg intTruthy (some 0) 5 ≠
        cexAgg.repo.save (some 0)
          (StateComputation.computeNewState cexAgg.decider 0 5) := by
  refine ⟨rfl, rfl, ?_⟩
  decide

/-- C3 (amended): `handle` starts from `initialState` when the fetched
state is absent, and from the fetched state when it is present and truthy;
it saves the computed state and returns the save result. On the in-memory
store, a first `handle c` from the empty store stores and returns the fold
from `initialState`, and a second `handle c'` starts from that stored
state — provided the stored state is truthy. -/
theorem claim_C3_handle_roundtrip {C S E Sigma : Type} (isTruthy : S → Bool) :
    (∀ (a : StateStoredAggregate.Agg C S E Sigma) (σ : Sigma) (c : C),
        a.repo.fetchState σ c = none →
        StateStoredAggregate.handle a isTruthy σ c =
          a.repo.save σ
            (StateComputation.computeNewState a.decider a.decider.initialState c)) ∧
    (∀ (a : StateStoredAggregate.Agg C S E Sigma) (σ : Sigma) (c : C) (s : S),
        a.repo.fetchState σ c = some s → isTruthy s = true →
        StateStoredAggregate.handle a isTruthy σ c =
          a.repo.save σ (StateComputation.computeNewState a.decider s c)) ∧
    (∀ (d : IDecider C S E) (c c' : C),
        (StateStoredAggregate.handle (StateStoredAggregate.Agg.mk d (inMemoryRepo C S))
              isTruthy none c).1 =
            StateComputation.computeNewState d d.initialState c ∧
          (StateStoredAggregate.handle (StateStoredAggregate.Agg.mk d (inMemoryRepo C S))
              isTruthy none c).2 =
            some (StateStoredAggregate.handle
                (StateStoredAggregate.Agg.mk d (inMemoryRepo C S)) isTruthy none c).1 ∧
          (isTruthy (StateStoredAggregate.handle
                (StateStoredAggregate.Agg.mk d (inMemoryRepo C S)) isTruthy none c).1 =
              true →
            (StateStoredAggregate.handle (StateStoredAggregate.Agg.mk d (inMemoryRepo C S))
                isTruthy
                (StateStoredAggregate.handle
                  (StateStoredAggregate.Agg.mk d (inMemoryRepo C S)) isTruthy none c).2
                c').1 =
              StateComputation.computeNewState d
                (StateStoredAggregate.handle
                  (StateStoredAggregate.Agg.mk d (inMemoryRepo C S)) isTruthy none c).1
                c')) := by
  refine ⟨fun a σ c hf => ?_, fun a σ c s hf ht => ?_, fun d c c' => ⟨rfl, rfl, fun ht => ?_⟩⟩
  · simp [StateStoredAggregate.handle, hf, resolveState]
  · simp [StateStoredAggregate.handle, hf, resolveState, ht]
  · simp only [StateStoredAggregate.handle, inMemoryRepo, resolveState] at ht
    simp [StateStoredAggregate.handle, inMemoryRepo, resolveState, ht]

/-- Witness for the amended C3, on the spec §8 scenario: `handle 5` from
the empty store yields 5, which is truthy, and the subsequent `handle 3`
starts from the stored 5 and yields 8. -/
theorem claim_C3_witness :
    intTruthy (StateStoredAggregate.handle
        (StateStoredAggregate.Agg.mk addDecider (inMemoryRepo Int Int))
        intTruthy none 5).1 = true ∧
      (StateStoredAggregate.handle
          (StateStoredAggregate.Agg.mk addDecider (inMemoryRepo Int Int)) intTruthy
          (StateStoredAggregate.handle
            (StateStoredAggregate.Agg.mk addDecider (inMemoryRepo Int Int))
            intTruthy none 5).2
          3).1 =
        StateComputation.computeNewState addDecider
          (StateStoredAggregate.handle
            (StateStoredAggregate.Agg.mk addDecider (inMemoryRepo Int Int))
            intTruthy none 5).1
          3 :=
  ⟨by decide,
    ((@claim_C3_handle_roundtrip Int Int Int Unit intTruthy).2.2 addDecider 5 3).2.2
      (by decide)⟩

/-- Wraps a locking repository so the store additionally logs every
version token passed to `save`, leaving the behaviour otherwise
unchanged; used to observe what `handle` hands to `save`. -/
def spyLockingRepo {C S V Sigma : Type} (r : StateLockingRepository C S V Sigma) :
    StateLockingRepository C S V (Sigma × List (Option V)) where
  fetchState p c := r.fetchState p.1 c
  save p s v :=
    ((r.save p.1 s v).1, ((r.save p.1 s v).2, p.2 ++ [v]))

/-- C5: both locking `handle`s call `save` exactly once, with exactly the
version token `fetchState` returned (absent included), and return the
(state, version) pair `save` produced. -/
theorem claim_C5_version_passthrough {C S E V Sigma : Type}
    (d : IDecider C S E) (r : StateLockingRepository C S V Sigma)
    (isTruthy : S → Bool) (σ : Sigma) (c : C) :
    (StateStoredLockingAggregate.handle
          (StateStoredLockingAggregate.Agg.mk d (spyLockingRepo r)) isTruthy (σ, []) c).2.2 =
        [(r.fetchState σ c).2] ∧
      (StateStoredLockingAggregate.handle
          (StateStoredLockingAggregate.Agg.mk d (spyLockingRepo r)) isTruthy (σ, []) c).1 =
        (r.save σ
            (StateComputation.computeNewState d
              (resolveState isTruthy (r.fetchState σ c).1 d.initialState) c)
            (r.fetchState σ c).2).1 ∧
      ∀ (g : ISaga E C) (fuel : Nat) (ns : S),
        StateOrchestratingComputation.computeNewState d g fuel
            (resolveState isTruthy (r.fetchState σ c).1 d.initialState) c = some ns →
        StateStoredOrchestratingLockingAggregate.handle
            (StateStoredOrchestratingLockingAggregate.Agg.mk d g (spyLockingRepo r))
            isTruthy fuel (σ, []) c =
          some ((r.save σ ns (r.fetchState σ c).2).1,
            ((r.save σ ns (r.fetchState σ c).2).2, [(r.fetchState σ c).2])) := by
  refine ⟨rfl, rfl, fun g fuel ns hns => ?_⟩
  simp [StateStoredOrchestratingLockingAggregate.handle, spyLockingRepo, hns]

/-- A concrete locking repository over a unit store: fetch yields state 4
at version 7; save bumps the version. -/
def lockRepoWit : StateLockingRepository Int Int Nat Unit where
  fetchState _ _ := (some 4, some 7)
  save _ s v :=
    ((s, (match v with | some n => n + 1 | none => 0)), ())

/-- Witness for C5 at `addDecider`, the empty saga, the concrete locking
repository, command 5 (fetched state 4 is truthy; the fold gives 9). -/
theorem claim_C5_witness :
    StateOrchestratingComputation.computeNewState addDecider (emptySaga Int Int) 1
        (resolveState intTruthy (lockRepoWit.fetchState () 5).1
          addDecider.initialState) 5 = some 9 ∧
      StateStoredOrchestratingLockingAggregate.handle
          (StateStoredOrchestratingLockingAggregate.Agg.mk addDecider
            (emptySaga Int Int) (spyLockingRepo lockRepoWit))
          intTruthy 1 ((), []) 5 =
        some ((lockRepoWit.save () 9 (lockRepoWit.fetchState () 5).2).1,
          ((lockRepoWit.save () 9 (lockRepoWit.fetchState () 5).2).2,
            [(lockRepoWit.fetchState () 5).2])) :=
  ⟨by decide,
    (claim_C5_version_passthrough addDecider lockRepoWit intTruthy () 5).2.2
      (emptySaga Int Int) 1 9 (by decide)⟩

/-- The decider contract with failures made explicit: `decide`/`evolve`
may raise (reject) with an error of type `ε`, which the core never
catches. -/
structure IDeciderE (ε C S E : Type) where
  decide : C → S → Except ε (List E)
  evolve : S → E → Except ε S
  initialState : S

/-- The saga contract with failures made explicit. -/
structure ISagaE (ε E C : Type) where
  react : E → Except ε (List C)

/-- Left fold in the `Except` monad: JS `reduce` with a callback that may
throw stops at the first exception. -/
def exceptFoldl {ε S A : Type} (f : S → A → Except ε S) : S → List A → Except ε S
  | s, [] => .ok s
  | s, a :: l =>
    match f s a with
    | .error err => .error err
    | .ok s' => exceptFoldl f s' l

/-- Embeds `StateComputation.computeNewState` with failing collaborators: a
`decide` failure aborts before any `evolve`; an `evolve` failure aborts
the fold at the offending event. -/
def computeNewStateE {ε C S E : Type} (d : IDeciderE ε C S E) (s : S) (c : C) :
    Except ε S :=
  match d.decide c s with
  | .error err => .error err
  | .ok events => exceptFoldl d.evolve s events

/-- JS `events.flatMap(react)` with a throwing `react`: the concatenation
is built event by event and the first exception aborts it. -/
def flatMapReactE {ε E C : Type} (react : E → Except ε (List C)) :
    List E → Except ε (List C)
  | [] => .ok []
  | e :: es =>
    match react e with
    | .error err => .error err
    | .ok cs =>
      match flatMapReactE react es with
      | .error err => .error err
      | .ok rest => .ok (cs ++ rest)

/-- Fold of the fuelled, fallible recursive call over the follow-up
commands: `none` is fuel exhaustion, `some (.error err)` a propagated
failure. -/
def optExceptFoldl {ε S A : Type} (f : S → A → Option (Except ε S)) :
    S → List A → Option (Except ε S)
  | s, [] => some (.ok s)
  | s, a :: l =>
    match f s a with
    | none => none
    | some (.error err) => some (.error err)
    | some (.ok s') => optExceptFoldl f s' l

/-- Embeds `StateOrchestratingComputation.computeNewState` with failing
collaborators, fuelled: decide, fold through evolve, flatMap through
react, then recurse over the follow-up commands; any failure propagates
unmodified, in program order. -/
def orchestratedComputeE {ε C S E : Type} (d : IDeciderE ε C S E) (g : ISagaE ε E C) :
    Nat → S → C → Option (Except ε S)
  | 0, _, _ => none
  | fuel + 1, s, c =>
    match d.decide c s with
    | .error err => some (.error err)
    | .ok events =>
      match exceptFoldl d.evolve s events with
      | .error err => some (.error err)
      | .ok ns =>
        match flatMapReactE g.react events with
        | .error err => some (.error err)
        | .ok cmds => optExceptFoldl (fun s' c' => orchestratedComputeE d g fuel s' c') ns cmds

/-- Embeds `StateStoredAggregate.handle` with failing collaborators, parametric
in the compute phase (plain `computeNewStateE` or an orchestrating
compute), and instrumented with the list of states passed to `save`: the
awaited `fetchState` runs first (a rejection aborts), then the compute
phase (a failure aborts before any save), then the single `save`, whose
outcome — success or failure — is the outcome of `handle`. -/
def handleTraceE {ε C S : Type} (init : S) (isTruthy : S → Bool)
    (compute : S → C → Except ε S)
    (fetchState : C → Except ε (Option S)) (save : S → Except ε S) (c : C) :
    Except ε S × List S :=
  match fetchState c with
  | .error err => (.error err, [])
  | .ok cur =>
    match compute (resolveState isTruthy cur init) c with
    | .error err => (.error err, [])
    | .ok ns => (save ns, [ns])

/-- Embeds `StateStoredLockingAggregate.handle` with failing collaborators,
instrumented with the (state, version) arguments passed to `save`. -/
def handleLockingTraceE {ε C S V : Type} (init : S) (isTruthy : S → Bool)
    (compute : S → C → Except ε S)
    (fetchState : C → Except ε (Option S × Option V))
    (save : S → Option V → Except ε (S × V)) (c : C) :
    Except ε (S × V) × List (S × Option V) :=
  match fetchState c with
  | .error err => (.error err, [])
  | .ok fetched =>
    match compute (resolveState isTruthy fetched.1 init) c with
    | .error err => (.error err, [])
    | .ok ns => (save ns fetched.2, [(ns, fetched.2)])

/-- C6: per `handle` invocation, `save` is reached at most once and only
with the fully computed state after the compute phase has completed; a
`fetchState` or compute-phase failure surfaces unmodified from `handle`
with no save performed; a `save` failure is `handle`'s outcome; `decide`,
`evolve` and `react` failures surface unmodified from the compute phase
(plain and orchestrating alike); the same holds for the locking `handle`,
whose single save also carries the fetched version. -/
theorem claim_C6_failure_propagation {ε C S E V : Type} :
    (∀ (init : S) (t : S → Bool) (compute : S → C → Except ε S)
        (fetch : C → Except ε (Option S)) (save : S → Except ε S) (c : C),
        (handleTraceE init t compute fetch save c).2.length ≤ 1) ∧
    (∀ (init : S) (t : S → Bool) (compute : S → C → Except ε S)
        (fetch : C → Except ε (Option S)) (save : S → Except ε S) (c : C) (err : ε),
        fetch c = .error err →
        handleTraceE init t compute fetch save c = (.error err, [])) ∧
    (∀ (init : S) (t : S → Bool) (compute : S → C → Except ε S)
        (fetch : C → Except ε (Option S)) (save : S → Except ε S) (c : C) (err : ε)
        (cur : Option S),
        fetch c = .ok cur → compute (resolveState t cur init) c = .error err →
        handleTraceE init t compute fetch save c = (.error err, [])) ∧
    (∀ (init : S) (t : S → Bool) (compute : S → C → Except ε S)
        (fetch : C → Except ε (Option S)) (save : S → Except ε S) (c : C)
        (cur : Option S) (ns : S),
        fetch c = .ok cur → compute (resolveState t cur init) c = .ok ns →
        handleTraceE init t compute fetch save c = (save ns, [ns])) ∧
    (∀ (d : IDeciderE ε C S E) (s : S) (c : C) (err : ε),
        d.decide c s = .error err → computeNewStateE d s c = .error err) ∧
    (∀ (d : IDeciderE ε C S E) (s : S) (c : C) (e : E) (es : List E) (err : ε),
        d.decide c s = .ok (e :: es) → d.evolve s e = .error err →
        computeNewStateE d s c = .error err) ∧
    (∀ (d : IDeciderE ε C S E) (g : ISagaE ε E C) (fuel : Nat) (s : S) (c : C)
        (events : List E) (ns : S) (err : ε),
        d.decide c s = .ok events → exceptFoldl d.evolve s events = .ok ns →
        flatMapReactE g.react events = .error err →
        orchestratedComputeE d g (fuel + 1) s c = some (.error err)) ∧
    (∀ (init : S) (t : S → Bool) (compute : S → C → Except ε S)
        (fetch : C → Except ε (Option S × Option V))
        (save : S → Option V → Except ε (S × V)) (c : C),
        (handleLockingTraceE init t compute fetch save c).2.length ≤ 1) ∧
    (∀ (init : S) (t : S → Bool) (compute : S → C → Except ε S)
        (fetch : C → Except ε (Option S × Option V))
        (save : S → Option V → Except ε (S × V)) (c : C) (err : ε),
        fetch c = .error err →
        handleLockingTraceE init t compute fetch save c = (.error err, [])) ∧
    (∀ (init : S) (t : S → Bool) (compute : S → C → Except ε S)
        (fetch : C → Except ε (Option S × Option V))
        (save : S → Option V → Except ε (S × V)) (c : C) (err : ε)
        (fetched : Option S × Option V),
        fetch c = .ok fetched → compute (resolveState t fetched.1 init) c = .error err →
        handleLockingTraceE init t compute fetch save c = (.error err, [])) ∧
    (∀ (init : S) (t : S → Bool) (compute : S → C → Except ε S)
        (fetch : C → Except ε (Option S × Option V))
        (save : S → Option V → Except ε (S × V)) (c : C)
        (fetched : Option S × Option V) (ns : S),
        fetch c = .ok fetched → compute (resolveState t fetched.1 init) c = .ok ns →
        handleLockingTraceE init t compute fetch save c =
          (save ns fetched.2, [(ns, fetched.2)])) := by
  refine ⟨?_, ?_, ?_, ?_, ?_, ?_, ?_, ?_, ?_, ?_, ?_⟩
  · intro init t compute fetch save c
    unfold handleTraceE
    cases fetch c with
    | error err => simp
    | ok cur => cases hc : compute (resolveState t cur init) c <;> simp [hc]
  · intro init t compute fetch save c err hf
    simp [handleTraceE, hf]
  · intro init t compute fetch save c err cur hf hc
    simp [handleTraceE, hf, hc]
  · intro init t compute fetch save c cur ns hf hc
    simp [handleTraceE, hf, hc]
  · intro d s c err hd
    simp [computeNewStateE, hd]
  · intro d s c e es err hd he
    simp [computeNewStateE, hd, exceptFoldl, he]
  · intro d g fuel s c events ns err hd hev hre
    simp [orchestratedComputeE, hd, hev, hre]
  · intro init t compute fetch save c
    unfold handleLockingTraceE
    cases fetch c with
    | error err => simp
    | ok fetched => cases hc : compute (resolveState t fetched.1 init) c <;> simp [hc]
  · intro init t compute fetch save c err hf
    simp [handleLockingTraceE, hf]
  · intro init t compute fetch save c err fetched hf hc
    simp [handleLockingTraceE, hf, hc]
  · intro init t compute fetch save c fetched ns hf hc
    simp [handleLockingTraceE, hf, hc]

/-- Witness for C6: with a repository whose fetch rejects, `handle`
surfaces exactly that failure and the save trace is empty. -/
theorem claim_C6_witness :
    (fun _ : Int => (Except.error "fetch rejected" : Except String (Option Int))) 5 =
        Except.error "fetch rejected" ∧
      handleTraceE 0 intTruthy (fun s (_ : Int) => Except.ok s)
          (fun _ : Int => (Except.error "fetch rejected" : Except String (Option Int)))
          (fun s => Except.ok s) 5 =
        (Except.error "fetch rejected", []) :=
  ⟨rfl,
    (@claim_C6_failure_propagation String Int Int Int Nat).2.1 0 intTruthy
      (fun s _ => Except.ok s) (fun _ => Except.error "fetch rejected")
      (fun s => Except.ok s) 5 "fetch rejected" rfl⟩
